import Mathlib

/-!
Verification of the Kafka-style version-negotiation broker (`src/main.rs`).

The Rust source is shallowly embedded: machine integers (`i8`, `i16`, `i32`)
become `Int` with explicit two's-complement conversion at the byte boundary,
byte buffers become `List Nat` (each element a byte value `0..255`), and a
Rust slice-index panic becomes the `.error .sliceOutOfBounds` outcome of an
`Except`.  All definitions mirror the source functions field by field.
-/

set_option autoImplicit false

namespace KafkaBroker

/-- Big-endian `i16::from_be_bytes [b0, b1]`: two's-complement of `b0*256+b1`. -/
def i16FromBytes (b0 b1 : Nat) : Int :=
  if b0 * 256 + b1 < 32768 then (b0 * 256 + b1 : Int)
  else (b0 * 256 + b1 : Int) - 65536

/-- Big-endian `i32::from_be_bytes [b0, b1, b2, b3]` (two's complement). -/
def i32FromBytes (b0 b1 b2 b3 : Nat) : Int :=
  if ((b0 * 256 + b1) * 256 + b2) * 256 + b3 < 2147483648 then
    (((b0 * 256 + b1) * 256 + b2) * 256 + b3 : Int)
  else (((b0 * 256 + b1) * 256 + b2) * 256 + b3 : Int) - 4294967296

/-- `i16::to_be_bytes`: the two bytes of `v` reduced modulo `2^16`. -/
def i16ToBytes (v : Int) : List Nat :=
  [(v % 65536).toNat / 256, (v % 65536).toNat % 256]

/-- `i32::to_be_bytes`: the four bytes of `v` reduced modulo `2^32`. -/
def i32ToBytes (v : Int) : List Nat :=
  [(v % 4294967296).toNat / 16777216, (v % 4294967296).toNat / 65536 % 256,
   (v % 4294967296).toNat / 256 % 256, (v % 4294967296).toNat % 256]

/-- `i8::to_be_bytes`: the single byte of `v` reduced modulo `2^8`. -/
def i8ToBytes (v : Int) : List Nat :=
  [(v % 256).toNat]

/-- `enum ErrorCode { NoError = 0, UnsupportedVersion = 35 }`. -/
inductive ErrorCode where
  | NoError
  | UnsupportedVersion
  deriving DecidableEq

/-- The `#[repr(i16)]` discriminant used by `self.error_code as i16`. -/
def ErrorCode.toInt : ErrorCode → Int
  | .NoError => 0
  | .UnsupportedVersion => 35

/-- `struct ApiKeys { api_key: i16, min_version: i16, max_version: i16 }`. -/
structure ApiKeys where
  api_key : Int
  min_version : Int
  max_version : Int
  deriving DecidableEq

/-- `ApiKeys::size`: three `i16` fields. -/
def ApiKeys.size (_ : ApiKeys) : Nat := 2 + 2 + 2

/-- `ApiKeys::to_bytes`: the three fields big-endian. -/
def ApiKeys.to_bytes (k : ApiKeys) : List Nat :=
  i16ToBytes k.api_key ++ i16ToBytes k.min_version ++ i16ToBytes k.max_version

/-- `struct ApiVersions`: error code, entry count, entry table, throttle time. -/
structure ApiVersions where
  error_code : ErrorCode
  num_api_keys : Int
  api_keys : List ApiKeys
  throttle_time_ms : Int
  deriving DecidableEq

/-- `ApiVersions::size`: `i16` + `i8` + the summed entry sizes + `i32`. -/
def ApiVersions.size (a : ApiVersions) : Nat :=
  2 + 1 + (a.api_keys.map ApiKeys.size).sum + 4

/-- `ApiVersions::to_bytes`: fields in declaration order, entries flattened. -/
def ApiVersions.to_bytes (a : ApiVersions) : List Nat :=
  i16ToBytes a.error_code.toInt ++ i8ToBytes a.num_api_keys ++
    (a.api_keys.map ApiKeys.to_bytes).flatten ++ i32ToBytes a.throttle_time_ms

/-- `struct ResponseHeader { correlation_id: i32 }`. -/
structure ResponseHeader where
  correlation_id : Int
  deriving DecidableEq

/-- `ResponseHeader::size`: one `i32`. -/
def ResponseHeader.size (_ : ResponseHeader) : Nat := 4

/-- `ResponseHeader::to_bytes`. -/
def ResponseHeader.to_bytes (h : ResponseHeader) : List Nat :=
  i32ToBytes h.correlation_id

/-- `struct ResponseBody { api_versions: ApiVersions, tag_buffer: i8 }`. -/
structure ResponseBody where
  api_versions : ApiVersions
  tag_buffer : Int
  deriving DecidableEq

/-- `ResponseBody::size`: the nested size plus the tag buffer counted twice. -/
def ResponseBody.size (b : ResponseBody) : Nat :=
  b.api_versions.size + 1 * 2

/-- `ResponseBody::to_bytes`: nested bytes then the tag buffer written twice. -/
def ResponseBody.to_bytes (b : ResponseBody) : List Nat :=
  b.api_versions.to_bytes ++ i8ToBytes b.tag_buffer ++ i8ToBytes b.tag_buffer

/-- `struct Response { message_size: i32, header, body }`. -/
structure Response where
  message_size : Int
  header : ResponseHeader
  body : ResponseBody
  deriving DecidableEq

/-- `Response::to_bytes`: size prefix, header bytes, body bytes. -/
def Response.to_bytes (r : Response) : List Nat :=
  i32ToBytes r.message_size ++ r.header.to_bytes ++ r.body.to_bytes

/-- `struct RequestHeader`; `client_id` keeps the raw bytes the source turns
into a `String` without UTF-8 validation (`from_utf8_unchecked`). -/
structure RequestHeader where
  request_api_key : Int
  request_api_version : Int
  correlation_id : Int
  client_id : Option (List Nat)
  deriving DecidableEq

/-- `struct Request { message_size: i32, header: RequestHeader }`. -/
structure Request where
  message_size : Int
  header : RequestHeader
  deriving DecidableEq

/-- Outcome standing for a Rust panic raised by an out-of-range slice index
such as `&message_buf[8..10]` on a buffer shorter than 10 bytes. -/
inductive Panic where
  | sliceOutOfBounds
  deriving DecidableEq

/-- `decode_request_header`: fixed-offset big-endian fields; a slice that
would fall outside the buffer panics in Rust, modelled as `.error`.  The
client-id bytes are taken verbatim (the source uses `from_utf8_unchecked`,
performing no UTF-8 validation). -/
def decode_request_header (message_buf : List Nat) : Except Panic RequestHeader :=
  if 10 ≤ message_buf.length then
    let request_api_key := i16FromBytes (message_buf.getD 0 0) (message_buf.getD 1 0)
    let request_api_version := i16FromBytes (message_buf.getD 2 0) (message_buf.getD 3 0)
    let correlation_id := i32FromBytes (message_buf.getD 4 0) (message_buf.getD 5 0)
      (message_buf.getD 6 0) (message_buf.getD 7 0)
    let size_of_client_id_i16 := i16FromBytes (message_buf.getD 8 0) (message_buf.getD 9 0)
    if 0 < size_of_client_id_i16 then
      if 10 + size_of_client_id_i16.toNat ≤ message_buf.length then
        .ok ⟨request_api_key, request_api_version, correlation_id,
          some ((message_buf.drop 10).take size_of_client_id_i16.toNat)⟩
      else .error .sliceOutOfBounds
    else
      .ok ⟨request_api_key, request_api_version, correlation_id, none⟩
  else .error .sliceOutOfBounds

/-- `encode_response_header`: echo the request's correlation id. -/
def encode_response_header (request : Request) : ResponseHeader :=
  ⟨request.header.correlation_id⟩

/-- `encode_response_body`: static two-entry table, version check `0..=4`,
`num_api_keys = 2`, `throttle_time_ms = 0`, `tag_buffer = 0`. -/
def encode_response_body (request : Request) : ResponseBody :=
  let api_keys : List ApiKeys := [⟨18, 0, 4⟩, ⟨1, 0, 16⟩]
  let error_code :=
    if 0 ≤ request.header.request_api_version ∧ request.header.request_api_version ≤ 4 then
      ErrorCode.NoError
    else ErrorCode.UnsupportedVersion
  ⟨⟨error_code, 2, api_keys, 0⟩, 0⟩

/-- `encode_response`: builds header and body and sets
`message_size = header.size() + body.size()`. -/
def encode_response (request : Request) : Response :=
  let header := encode_response_header request
  let body := encode_response_body request
  ⟨(header.size + body.size : Nat), header, body⟩

/-- Result of one `read_exact` call on the socket: either the requested bytes
or an I/O error.  The source ignores the error (`let _ = ... .map_err(log)`)
and proceeds with the zero-initialised buffer. -/
inductive ReadResult where
  | ok (bytes : List Nat)
  | err
  deriving DecidableEq

/-- Result of the `write_all` call; the source ignores it either way. -/
inductive WriteResult where
  | ok
  | err
  deriving DecidableEq

/-- The I/O outcomes one iteration of `handle_connection` encounters:
the 4-byte size read, the body read, and the response write. -/
structure IterInput where
  sizeRead : ReadResult
  bodyRead : ReadResult
  writeRes : WriteResult
  deriving DecidableEq

/-- How one pass of the `loop` in `handle_connection` ends: the body runs to
completion and the loop iterates again, or a slice panic inside
`decode_request_header` unwinds and kills the connection's thread. -/
inductive LoopStep where
  | next
  | panicked
  deriving DecidableEq

/-- The buffer contents after `read_exact` into a zero-initialised buffer of
length `n`: the bytes read on success, the untouched zeros on failure. -/
def readBytes (n : Nat) : ReadResult → List Nat
  | .ok bs => bs
  | .err => List.replicate n 0

/-- One iteration of the `loop` in `handle_connection`:
`parse_message_size`, `decode_request_message`, `encode_response`,
`write_all`.  Read and write errors are logged and otherwise ignored, so the
only way the iteration does not fall through to the next one is a panic in
`decode_request_header`; the write result is never inspected. -/
def iterOutcome (inp : IterInput) : LoopStep :=
  let sizeBytes := readBytes 4 inp.sizeRead
  let message_size := i32FromBytes (sizeBytes.getD 0 0) (sizeBytes.getD 1 0)
    (sizeBytes.getD 2 0) (sizeBytes.getD 3 0)
  let message_buf := readBytes message_size.toNat inp.bodyRead
  match decode_request_header message_buf with
  | .error _ => .panicked
  | .ok _ => .next

/-- Whether `b` is a UTF-8 continuation byte (`0x80..0xBF`). -/
def isContByte (b : Nat) : Bool :=
  0x80 ≤ b && b ≤ 0xBF

/-- Standard UTF-8 well-formedness of a byte sequence (RFC 3629 table),
used only to state which buffers the source accepts without validation. -/
def utf8Valid : List Nat → Bool
  | [] => true
  | b :: rest =>
    if b ≤ 0x7F then utf8Valid rest
    else if 0xC2 ≤ b && b ≤ 0xDF then
      match rest with
      | b1 :: rest2 => isContByte b1 && utf8Valid rest2
      | _ => false
    else if b == 0xE0 then
      match rest with
      | b1 :: b2 :: rest2 =>
        (0xA0 ≤ b1 && b1 ≤ 0xBF) && isContByte b2 && utf8Valid rest2
      | _ => false
    else if 0xE1 ≤ b && b ≤ 0xEC then
      match rest with
      | b1 :: b2 :: rest2 => isContByte b1 && isContByte b2 && utf8Valid rest2
      | _ => false
    else if b == 0xED then
      match rest with
      | b1 :: b2 :: rest2 =>
        (0x80 ≤ b1 && b1 ≤ 0x9F) && isContByte b2 && utf8Valid rest2
      | _ => false
    else if 0xEE ≤ b && b ≤ 0xEF then
      match rest with
      | b1 :: b2 :: rest2 => isContByte b1 && isContByte b2 && utf8Valid rest2
      | _ => false
    else if b == 0xF0 then
      match rest with
      | b1 :: b2 :: b3 :: rest2 =>
        (0x90 ≤ b1 && b1 ≤ 0xBF) && isContByte b2 && isContByte b3 && utf8Valid rest2
      | _ => false
    else if 0xF1 ≤ b && b ≤ 0xF3 then
      match rest with
      | b1 :: b2 :: b3 :: rest2 =>
        isContByte b1 && isContByte b2 && isContByte b3 && utf8Valid rest2
      | _ => false
    else if b == 0xF4 then
      match rest with
      | b1 :: b2 :: b3 :: rest2 =>
        (0x80 ≤ b1 && b1 ≤ 0x8F) && isContByte b2 && isContByte b3 && utf8Valid rest2
      | _ => false
    else false

/-! ## Helper lemmas shared by the claim theorems -/

/-- The byte image of `encode_response` for an arbitrary request: a constant
frame except for the echoed correlation id and the negotiated error code. -/
theorem encode_response_to_bytes_eq (r : Request) :
    (encode_response r).to_bytes =
      0 :: 0 :: 0 :: 25 :: (i32ToBytes r.header.correlation_id ++
        (i16ToBytes ((encode_response_body r).api_versions.error_code.toInt) ++
          [2, 0, 18, 0, 0, 0, 4, 0, 1, 0, 0, 0, 16, 0, 0, 0, 0, 0, 0])) := by
  rcases r with ⟨ms, ⟨ak, av, cid, cli⟩⟩
  by_cases h : 0 ≤ av ∧ av ≤ 4 <;>
    simp [encode_response, encode_response_header, encode_response_body,
      Response.to_bytes, ResponseHeader.to_bytes, ResponseBody.to_bytes,
      ApiVersions.to_bytes, ApiKeys.to_bytes, ApiVersions.size, ApiKeys.size,
      ResponseBody.size, ResponseHeader.size, i8ToBytes, i16ToBytes, i32ToBytes,
      ErrorCode.toInt, h]

/-- The negotiated error code, stated over `encode_response_body` exactly as
the source's `match request.header.request_api_version { 0..=4 => ... }`. -/
theorem encode_response_body_error_code (r : Request) :
    (encode_response_body r).api_versions.error_code =
      if 0 ≤ r.header.request_api_version ∧ r.header.request_api_version ≤ 4 then
        ErrorCode.NoError
      else ErrorCode.UnsupportedVersion := rfl

/-! ## Claim theorems -/

/-- C1: for every request, the response's error code is `NoError` exactly when
the request's `api_version` lies in `[0, 4]` and `UnsupportedVersion` (wire
bytes `00 23`, 35) for every version outside `[0, 4]`, negative included;
stated both on the response structure and on the serialized error-code bytes
at offsets `[8, 10)` of the response. -/
theorem error_code_matches_version_range (r : Request) :
    ((encode_response r).body.api_versions.error_code =
        if 0 ≤ r.header.request_api_version ∧ r.header.request_api_version ≤ 4 then
          ErrorCode.NoError
        else ErrorCode.UnsupportedVersion) ∧
      (((encode_response r).to_bytes.drop 8).take 2 =
        if 0 ≤ r.header.request_api_version ∧ r.header.request_api_version ≤ 4 then
          [0, 0]
        else [0, 35]) := by
  refine ⟨encode_response_body_error_code r, ?_⟩
  rw [encode_response_to_bytes_eq]
  by_cases h : 0 ≤ r.header.request_api_version ∧ r.header.request_api_version ≤ 4 <;>
    simp [encode_response_body, h, ErrorCode.toInt, i16ToBytes, i32ToBytes]

/-- C2: the response's correlation id equals the request's, both as the
structure field and as the serialized bytes at offsets `[4, 8)`. -/
theorem correlation_id_echoed (r : Request) :
    (encode_response r).header.correlation_id = r.header.correlation_id ∧
      ((encode_response r).to_bytes.drop 4).take 4 = i32ToBytes r.header.correlation_id := by
  refine ⟨rfl, ?_⟩
  rw [encode_response_to_bytes_eq]
  simp [i32ToBytes]

/-- C3: the `message_size` field of every serialized response equals the
serialized length minus the 4-byte size field itself. -/
theorem message_size_matches_length (r : Request) :
    ((encode_response r).to_bytes.length : Int) - 4 = (encode_response r).message_size := by
  rw [encode_response_to_bytes_eq]
  simp [encode_response, encode_response_header, encode_response_body,
    ResponseHeader.size, ResponseBody.size, ApiVersions.size, ApiKeys.size,
    i32ToBytes, i16ToBytes]

/-- C4 counterexample: the Scenario-1 frame declares `message_size = 8`, so the
decoder receives only the eight bytes `00 12 00 04 00 00 00 07` and panics on
the missing client-id length slice; moreover for the request the scenario
describes (api_key 18, version 4, correlation id 7, no client id) the
serialized response does NOT begin `00 00 00 13 ...`: its size field is not
`0x13`. -/
theorem scenario1_claimed_bytes_refuted :
    decode_request_header [0x00, 0x12, 0x00, 0x04, 0x00, 0x00, 0x00, 0x07] =
        .error .sliceOutOfBounds ∧
      (encode_response ⟨8, ⟨18, 4, 7, none⟩⟩).to_bytes.take 29 ≠
        [0x00, 0x00, 0x00, 0x13, 0x00, 0x00, 0x00, 0x07, 0x00, 0x00, 0x02,
         0x00, 0x12, 0x00, 0x00, 0x00, 0x04, 0x00, 0x01, 0x00, 0x00, 0x00, 0x10,
         0x00, 0x00, 0x00, 0x00, 0x00, 0x00] :=
  ⟨rfl, by decide⟩

/-- C4 amended: with a consistent frame (`message_size = 10` so the `FF FF`
client-id length lies inside the frame) the body decodes to header
(18, 4, 7, client id absent), and the serialized response is exactly
`00 00 00 19 | 00 00 00 07 | 00 00 | 02 | 00 12 00 00 00 04 |
00 01 00 00 00 10 | 00 00 00 00 | 00 | 00`, i.e. `message_size = 0x19` (25). -/
theorem scenario1_amended :
    decode_request_header [0x00, 0x12, 0x00, 0x04, 0x00, 0x00, 0x00, 0x07, 0xFF, 0xFF] =
        .ok ⟨18, 4, 7, none⟩ ∧
      (encode_response ⟨10, ⟨18, 4, 7, none⟩⟩).to_bytes =
        [0x00, 0x00, 0x00, 0x19, 0x00, 0x00, 0x00, 0x07, 0x00, 0x00, 0x02,
         0x00, 0x12, 0x00, 0x00, 0x00, 0x04, 0x00, 0x01, 0x00, 0x00, 0x00, 0x10,
         0x00, 0x00, 0x00, 0x00, 0x00, 0x00] :=
  ⟨rfl, by decide⟩

/-- C5: for every request the body's `api_keys` sequence is the static
two-entry table in insertion order — (18, 0, 4) then (1, 0, 16) — the
`num_api_keys` count equals the table's length (2), `throttle_time_ms` is 0,
and the serialized entry bytes at offsets `[11, 23)` are the table in that
order. -/
theorem api_key_table_static (r : Request) :
    (encode_response r).body.api_versions.api_keys =
        [⟨18, 0, 4⟩, ⟨1, 0, 16⟩] ∧
      (encode_response r).body.api_versions.num_api_keys =
        ((encode_response r).body.api_versions.api_keys.length : Int) ∧
      (encode_response r).body.api_versions.num_api_keys = 2 ∧
      (encode_response r).body.api_versions.throttle_time_ms = 0 ∧
      (((encode_response r).to_bytes.drop 11).take 12 =
        [0, 18, 0, 0, 0, 4, 0, 1, 0, 0, 0, 16]) := by
  refine ⟨rfl, rfl, rfl, rfl, ?_⟩
  rw [encode_response_to_bytes_eq]
  simp [i32ToBytes, i16ToBytes]

/-- `getD` looks through `take` at indices below the cut. -/
theorem getD_take_of_lt (l : List Nat) (i n : Nat) (h : i < n) :
    (l.take n).getD i 0 = l.getD i 0 := by
  simp [List.getD_eq_getElem?_getD, List.getElem?_take, h]

/-- C6: a successfully decoded header has a present `client_id` exactly when
the int16 length prefix at bytes `[8, 10)` is strictly positive; with a zero
or negative prefix the header is already determined by the first 10 bytes
(no further bytes are consumed).  Concretely, length 5 followed by
`68 65 6C 6C 6F` yields the bytes of `"hello"`, and length `FF FF` (-1)
yields an absent `client_id`. -/
theorem client_id_iff_positive_length :
    (∀ buf h, decode_request_header buf = .ok h →
        ((h.client_id.isSome ↔ 0 < i16FromBytes (buf.getD 8 0) (buf.getD 9 0)) ∧
          (i16FromBytes (buf.getD 8 0) (buf.getD 9 0) ≤ 0 →
            decode_request_header (buf.take 10) = .ok h))) ∧
      decode_request_header [0x00, 0x12, 0x00, 0x04, 0x00, 0x00, 0x00, 0x07, 0x00, 0x05,
          0x68, 0x65, 0x6C, 0x6C, 0x6F] =
        .ok ⟨18, 4, 7, some [0x68, 0x65, 0x6C, 0x6C, 0x6F]⟩ ∧
      decode_request_header [0x00, 0x12, 0x00, 0x04, 0x00, 0x00, 0x00, 0x07, 0xFF, 0xFF] =
        .ok ⟨18, 4, 7, none⟩ := by
  refine ⟨?_, rfl, rfl⟩
  intro buf h hok
  by_cases h10 : 10 ≤ buf.length
  · by_cases hpos : 0 < i16FromBytes (buf.getD 8 0) (buf.getD 9 0)
    · by_cases hfit : 10 + (i16FromBytes (buf.getD 8 0) (buf.getD 9 0)).toNat ≤ buf.length
      · dsimp only [decode_request_header] at hok
        rw [if_pos h10, if_pos hpos, if_pos hfit] at hok
        injection hok with hok
        refine ⟨?_, fun hle => absurd hpos (not_lt.mpr hle)⟩
        rw [← hok]
        simpa using hpos
      · dsimp only [decode_request_header] at hok
        rw [if_pos h10, if_pos hpos, if_neg hfit] at hok
        exact Except.noConfusion hok
    · dsimp only [decode_request_header] at hok
      rw [if_pos h10, if_neg hpos] at hok
      injection hok with hok
      refine ⟨?_, fun _ => ?_⟩
      · rw [← hok]
        simpa using hpos
      · have hlen : 10 ≤ (buf.take 10).length := by
          rw [List.length_take]
          omega
        have e0 := getD_take_of_lt buf 0 10 (by omega)
        have e1 := getD_take_of_lt buf 1 10 (by omega)
        have e2 := getD_take_of_lt buf 2 10 (by omega)
        have e3 := getD_take_of_lt buf 3 10 (by omega)
        have e4 := getD_take_of_lt buf 4 10 (by omega)
        have e5 := getD_take_of_lt buf 5 10 (by omega)
        have e6 := getD_take_of_lt buf 6 10 (by omega)
        have e7 := getD_take_of_lt buf 7 10 (by omega)
        have e8 := getD_take_of_lt buf 8 10 (by omega)
        have e9 := getD_take_of_lt buf 9 10 (by omega)
        dsimp only [decode_request_header]
        rw [if_pos hlen, e0, e1, e2, e3, e4, e5, e6, e7, e8, e9, if_neg hpos]
        exact congrArg Except.ok hok
  · dsimp only [decode_request_header] at hok
    rw [if_neg h10] at hok
    exact Except.noConfusion hok

/-- C6 witness: instantiating the quantified part at the "hello" buffer. -/
theorem client_id_iff_positive_length_witness :
    (RequestHeader.mk 18 4 7 (some [0x68, 0x65, 0x6C, 0x6C, 0x6F])).client_id.isSome ↔
      0 < i16FromBytes 0x00 0x05 := by
  have h := client_id_iff_positive_length.1
    [0x00, 0x12, 0x00, 0x04, 0x00, 0x00, 0x00, 0x07, 0x00, 0x05, 0x68, 0x65, 0x6C, 0x6C, 0x6F]
    ⟨18, 4, 7, some [0x68, 0x65, 0x6C, 0x6C, 0x6F]⟩ rfl
  exact h.1

/-- C7: on a buffer of fewer than 10 bytes, and on a buffer whose declared
positive client-id length overruns the remaining bytes, the decoder raises a
slice-index panic — the crash the source actually exhibits in place of the
`TruncatedHeader` error the specification prescribes. -/
theorem truncated_header_panics :
    (∀ buf : List Nat, buf.length < 10 →
        decode_request_header buf = .error .sliceOutOfBounds) ∧
      (∀ buf : List Nat, 10 ≤ buf.length →
        0 < i16FromBytes (buf.getD 8 0) (buf.getD 9 0) →
        buf.length < 10 + (i16FromBytes (buf.getD 8 0) (buf.getD 9 0)).toNat →
        decode_request_header buf = .error .sliceOutOfBounds) ∧
      decode_request_header [0x00, 0x12, 0x00, 0x04] = .error .sliceOutOfBounds ∧
      decode_request_header [0x00, 0x12, 0x00, 0x04, 0x00, 0x00, 0x00, 0x07, 0x00, 0x05,
          0x68, 0x65] = .error .sliceOutOfBounds := by
  refine ⟨fun buf hlt => ?_, fun buf h1 h2 h3 => ?_, rfl, rfl⟩
  · dsimp only [decode_request_header]
    rw [if_neg (by omega : ¬10 ≤ buf.length)]
  · have h4 : ¬10 + (i16FromBytes (buf.getD 8 0) (buf.getD 9 0)).toNat ≤ buf.length := by
      omega
    dsimp only [decode_request_header]
    rw [if_pos h1, if_pos h2, if_neg h4]

/-- C7 witness: the quantified parts instantiated at concrete buffers. -/
theorem truncated_header_panics_witness :
    decode_request_header [0x00] = .error .sliceOutOfBounds ∧
      decode_request_header [0x00, 0x12, 0x00, 0x04, 0x00, 0x00, 0x00, 0x07, 0x00, 0x02,
          0x68] = .error .sliceOutOfBounds :=
  ⟨truncated_header_panics.1 [0x00] (by decide),
    truncated_header_panics.2.1 _ (by decide) (by decide) (by decide)⟩

/-- C8: a client-id region that is not valid UTF-8 (the lone byte `FF`) is
accepted by the decoder, which copies the raw bytes without any validation
(`from_utf8_unchecked` in the source) — no `MalformedClientId` outcome
exists anywhere in the code. -/
theorem invalid_utf8_client_id_accepted :
    utf8Valid [0xFF] = false ∧
      decode_request_header [0x00, 0x12, 0x00, 0x04, 0x00, 0x00, 0x00, 0x07, 0x00, 0x01,
          0xFF] = .ok ⟨18, 4, 7, some [0xFF]⟩ :=
  ⟨rfl, rfl⟩

/-- C9: the connection loop neither exits on every connection failure nor
only on connection failures.  A failed body read (size read ok, declared
size 10) is swallowed and the loop continues on a zero-filled buffer; a
failed response write is likewise ignored and the loop continues; and a
perfectly healthy connection that sends a well-framed but short (8-byte)
header kills the loop by an out-of-bounds slice panic. -/
theorem connection_loop_survives_io_failures :
    iterOutcome ⟨.ok [0x00, 0x00, 0x00, 0x0A], .err, .ok⟩ = .next ∧
      iterOutcome ⟨.ok [0x00, 0x00, 0x00, 0x0A],
        .ok [0x00, 0x12, 0x00, 0x04, 0x00, 0x00, 0x00, 0x07, 0xFF, 0xFF], .err⟩ = .next ∧
      iterOutcome ⟨.ok [0x00, 0x00, 0x00, 0x08],
        .ok [0x00, 0x12, 0x00, 0x04, 0x00, 0x00, 0x00, 0x07], .ok⟩ = .panicked :=
  ⟨rfl, rfl, rfl⟩

/-- C10: the encoded response bytes depend only on the request's
`api_version` and `correlation_id`; `api_key`, `client_id` and the framed
`message_size` are irrelevant. -/
theorem response_depends_only_on_version_and_correlation (r1 r2 : Request)
    (hv : r1.header.request_api_version = r2.header.request_api_version)
    (hc : r1.header.correlation_id = r2.header.correlation_id) :
    (encode_response r1).to_bytes = (encode_response r2).to_bytes := by
  have he : (encode_response_body r1).api_versions.error_code =
      (encode_response_body r2).api_versions.error_code := by
    simp [encode_response_body, hv]
  rw [encode_response_to_bytes_eq, encode_response_to_bytes_eq, hc, he]

/-- C10 witness: two requests differing in `api_key`, `client_id` and framed
size but agreeing on version and correlation id encode identically. -/
theorem response_depends_only_on_version_and_correlation_witness :
    (encode_response ⟨8, ⟨18, 4, 7, none⟩⟩).to_bytes =
      (encode_response ⟨100, ⟨1, 4, 7, some [0x68]⟩⟩).to_bytes :=
  response_depends_only_on_version_and_correlation _ _ rfl rfl

end KafkaBroker
